import Mathlib

/-!
Shallow embedding of `src/app.py` (a Streamlit dashboard over a census CSV)
and proofs of the specification's claims about it.

The dashboard logic embedded here:
* `filtered_df` — the two threshold filters (app.py lines 84-85);
* `state_df`    — the region restriction (lines 98-105);
* `tab2`        — the categorical-chart branch (lines 122-154);
* correlation   — the pairwise Pearson matrix `state_df[numerical_cols].corr()`
                  (line 182), modelled exactly over ℚ;
* `summarySection` — the summary-stats branch of tab 3 (lines 212-229);
* `top_districts`  — `state_df.nlargest(5, primary)` (line 221), modelled as
                     `take 5` of a stable descending sort, which is the
                     documented semantics of pandas `nlargest` with
                     `keep='first'`;
* `csvLines` / `downloadFileName` — the export (lines 231-238);
* `plotPass`    — the whole `if plot:` block (lines 91-238), including the
                  fact that the name `state_df` is only bound inside the
                  non-empty branch, so the download gate at line 232 reads an
                  unassigned name when the filtered table is empty;
* `resetRerun`  — the reset handler (lines 64-65).
-/

/-- One row of the loaded table (`india.csv`): identifiers, geocoordinates
and numeric socioeconomic fields.  The real table has ~17 numeric columns;
we embed three representative ones (`population`, `literacy_rate`,
`sex_ratio`) — every claim is uniform in the numeric columns. -/
structure Record where
  state : String
  district : String
  latitude : ℚ
  longitude : ℚ
  population : ℚ
  literacy_rate : ℚ
  sex_ratio : ℚ
deriving Repr, DecidableEq

/-- Line 57: `chart_type = st.sidebar.selectbox(..., ["Bar", "Pie", "Box"])`;
the selectbox can only yield one of the three values. -/
inductive ChartType
  | bar
  | pie
  | box
deriving Repr, DecidableEq

/-- The sidebar widget values (spec: Selection State).  `selected_state` is
`"Overall India"` or a state name; `min_population` and `min_literacy` are the
two slider values (lines 53-54). -/
structure Selection where
  selected_state : String
  primary : String
  secondary : String
  min_population : ℚ
  min_literacy : ℚ
  chart_type : ChartType
deriving Repr, DecidableEq

/-- The default widget values: the first entry of each selectbox
(`"Overall India"` at line 25, `"Population"` at lines 33-49, `"Bar"` at
line 57) and each slider's declared default `0` (lines 53-54). -/
def defaultSelection : Selection :=
  { selected_state := "Overall India"
  , primary := "Population"
  , secondary := "Population"
  , min_population := 0
  , min_literacy := 0
  , chart_type := ChartType.bar }

/-- Lines 84-85:
`filtered_df = df[df['Population'] >= min_population]` then
`filtered_df = filtered_df[filtered_df['Literacy_Rate'] >= min_literacy]`. -/
def filtered_df (df : List Record) (min_population min_literacy : ℚ) :
    List Record :=
  (df.filter (fun r => min_population ≤ r.population)).filter
    (fun r => min_literacy ≤ r.literacy_rate)

/-- Lines 98-105: `state_df = filtered_df` when `"Overall India"` is selected,
else `state_df = filtered_df[filtered_df['State'] == selected_state]`. -/
def state_df (filtered : List Record) (selected_state : String) :
    List Record :=
  if selected_state = "Overall India" then filtered
  else filtered.filter (fun r => r.state = selected_state)

/-- C1 helper: membership in the filtered table forces both predicates. -/
theorem mem_filtered_df {df : List Record} {mp ml : ℚ} {r : Record}
    (h : r ∈ filtered_df df mp ml) :
    r ∈ df ∧ mp ≤ r.population ∧ ml ≤ r.literacy_rate := by
  unfold filtered_df at h
  have h2 := List.of_mem_filter h
  have h1 := List.mem_of_mem_filter h
  have h3 := List.of_mem_filter h1
  have h0 := List.mem_of_mem_filter h1
  refine ⟨h0, ?_, ?_⟩
  · simpa using h3
  · simpa using h2

/-- C1: for valid thresholds (`0 ≤ min_population`,
`min_literacy_rate ∈ [0,100]`), the Working Subset is a subset of the Table
and every record in it meets both thresholds. -/
theorem c1_filter_sound (df : List Record) (mp ml : ℚ)
    (_hmp : 0 ≤ mp) (_hml0 : 0 ≤ ml) (_hml1 : ml ≤ 100) :
    filtered_df df mp ml ⊆ df ∧
      ∀ r ∈ filtered_df df mp ml,
        mp ≤ r.population ∧ ml ≤ r.literacy_rate := by
  constructor
  · intro r hr
    exact (mem_filtered_df hr).1
  · intro r hr
    exact (mem_filtered_df hr).2

/-- A concrete record used by several witnesses. -/
def goa1 : Record :=
  { state := "Goa", district := "North Goa", latitude := 157/10
  , longitude := 739/10, population := 818008, literacy_rate := 8966/100
  , sex_ratio := 964 }

/-- Witness for C1 at a concrete table and thresholds. -/
theorem c1_filter_sound_witness :
    (0 ≤ (1000 : ℚ)) ∧ (0 ≤ (50 : ℚ)) ∧ ((50 : ℚ) ≤ 100) ∧
      (filtered_df [goa1] 1000 50 ⊆ [goa1] ∧
        ∀ r ∈ filtered_df [goa1] 1000 50,
          (1000 : ℚ) ≤ r.population ∧ (50 : ℚ) ≤ r.literacy_rate) :=
  ⟨by norm_num, by norm_num, by norm_num,
    c1_filter_sound [goa1] 1000 50 (by norm_num) (by norm_num) (by norm_num)⟩

/-- C8: refiltering an already-filtered subset with the same or looser
thresholds returns it unchanged. -/
theorem c8_filter_idempotent (df : List Record) (mp ml mp' ml' : ℚ)
    (hmp : mp' ≤ mp) (hml : ml' ≤ ml) :
    filtered_df (filtered_df df mp ml) mp' ml' = filtered_df df mp ml := by
  have hpop :
      (filtered_df df mp ml).filter (fun r => mp' ≤ r.population) =
        filtered_df df mp ml := by
    apply List.filter_eq_self.mpr
    intro r hr
    exact decide_eq_true (le_trans hmp (mem_filtered_df hr).2.1)
  show ((filtered_df df mp ml).filter
      (fun r => mp' ≤ r.population)).filter
      (fun r => ml' ≤ r.literacy_rate) = filtered_df df mp ml
  rw [hpop]
  apply List.filter_eq_self.mpr
  intro r hr
  exact decide_eq_true (le_trans hml (mem_filtered_df hr).2.2)

/-- Witness for C8 at a concrete table and thresholds. -/
theorem c8_filter_idempotent_witness :
    ((500 : ℚ) ≤ 1000) ∧ ((40 : ℚ) ≤ 50) ∧
      filtered_df (filtered_df [goa1] 1000 50) 500 40 =
        filtered_df [goa1] 1000 50 :=
  ⟨by norm_num, by norm_num,
    c8_filter_idempotent [goa1] 1000 50 500 40 (by norm_num) (by norm_num)⟩

/-- C3: when a specific region is selected every record of the
region-restricted subset carries that region, and selecting
`"Overall India"` leaves the subset unchanged. -/
theorem c3_region_restriction (filtered : List Record)
    (sel : String) :
    (sel ≠ "Overall India" →
      ∀ r ∈ state_df filtered sel, r.state = sel) ∧
    (sel = "Overall India" → state_df filtered sel = filtered) := by
  constructor
  · intro hne r hr
    unfold state_df at hr
    rw [if_neg hne] at hr
    simpa using List.of_mem_filter hr
  · intro heq
    unfold state_df
    rw [if_pos heq]

/-- Witness for C3 at a concrete subset and region. -/
theorem c3_region_restriction_witness :
    ("Goa" ≠ "Overall India" →
        ∀ r ∈ state_df [goa1] "Goa", r.state = "Goa") ∧
      ("Goa" : String) ≠ "Overall India" ∧
      ∀ r ∈ state_df [goa1] "Goa", r.state = "Goa" := by
  refine ⟨(c3_region_restriction [goa1] "Goa").1, by decide, ?_⟩
  exact (c3_region_restriction [goa1] "Goa").1 (by decide)

/-- The descending comparison pandas `nlargest` uses on the `primary`
column: record `a` precedes record `b` when `key b ≤ key a`. -/
def keyGE (key : Record → ℚ) : Record → Record → Prop :=
  fun a b => key b ≤ key a

instance (key : Record → ℚ) : DecidableRel (keyGE key) :=
  fun a b => inferInstanceAs (Decidable (key b ≤ key a))

/-- Stable descending sort on the `primary` column: the exact semantics of
pandas `nlargest` (descending order, ties kept in original row order,
`keep='first'`) before truncation. -/
def nlargestSort (key : Record → ℚ) (l : List Record) : List Record :=
  List.insertionSort (keyGE key) l

/-- Line 221, `state_df.nlargest(5, primary)`: the first five rows of the
stable descending sort. -/
def nlargest5 (key : Record → ℚ) (l : List Record) : List Record :=
  (nlargestSort key l).take 5

/-- Line 221, `state_df.nlargest(5, primary)[['District', primary]]`:
project the top-5 rows to (District, primary value). -/
def top_districts (key : Record → ℚ) (l : List Record) :
    List (String × ℚ) :=
  (nlargest5 key l).map (fun r => (r.district, key r))

/-- Stability of a single ordered insertion: the `key = k` rows of the
inserted list are the `key = k` rows of the original, with the new row in
front exactly when its key is `k` (the skipped prefix has keys `> key a`). -/
theorem filter_key_orderedInsert (key : Record → ℚ) (k : ℚ) (a : Record) :
    ∀ l : List Record,
      (List.orderedInsert (keyGE key) a l).filter
          (fun r => decide (key r = k)) =
        if key a = k then
          a :: l.filter (fun r => decide (key r = k))
        else l.filter (fun r => decide (key r = k))
  | [] => by
    simp only [List.orderedInsert, List.filter]
    by_cases h : key a = k
    · simp [h]
    · simp [h]
  | b :: l => by
    simp only [List.orderedInsert]
    by_cases hr : keyGE key a b
    · rw [if_pos hr]
      by_cases h : key a = k
      · simp [List.filter_cons, h]
      · simp [List.filter_cons, h]
    · rw [if_neg hr]
      have hlt : key a < key b := lt_of_not_le hr
      rw [List.filter_cons, filter_key_orderedInsert key k a l]
      by_cases h : key a = k
      · have hbk : ¬ key b = k := by
          intro hbk
          exact absurd (hbk.trans h.symm) (ne_of_gt hlt)
        simp [List.filter_cons, h, hbk]
      · by_cases hbk : key b = k
        · simp [List.filter_cons, h, hbk]
        · simp [List.filter_cons, h, hbk]

/-- Stability of the whole sort: for every key value `k`, the `key = k` rows
of the sorted list are exactly the `key = k` rows of the input, in the same
order. -/
theorem filter_key_nlargestSort (key : Record → ℚ) (k : ℚ) :
    ∀ l : List Record,
      (nlargestSort key l).filter (fun r => decide (key r = k)) =
        l.filter (fun r => decide (key r = k))
  | [] => rfl
  | a :: l => by
    show (List.orderedInsert (keyGE key) a
        (nlargestSort key l)).filter (fun r => decide (key r = k)) = _
    rw [filter_key_orderedInsert key k a (nlargestSort key l),
      filter_key_nlargestSort key k l]
    by_cases h : key a = k
    · simp [List.filter, h]
    · simp [List.filter, h]

/-- The five example rows of the spec's top-5 scenario, with `Population`
values `[10, 50, 30, 50, 20]` in table order. -/
def exampleRows : List Record :=
  [ { state := "S", district := "D1", latitude := 0, longitude := 0
    , population := 10, literacy_rate := 0, sex_ratio := 0 }
  , { state := "S", district := "D2", latitude := 0, longitude := 0
    , population := 50, literacy_rate := 0, sex_ratio := 0 }
  , { state := "S", district := "D3", latitude := 0, longitude := 0
    , population := 30, literacy_rate := 0, sex_ratio := 0 }
  , { state := "S", district := "D4", latitude := 0, longitude := 0
    , population := 50, literacy_rate := 0, sex_ratio := 0 }
  , { state := "S", district := "D5", latitude := 0, longitude := 0
    , population := 20, literacy_rate := 0, sex_ratio := 0 } ]

/-- C4: the top-5 computation returns at most 5 rows, in descending key
order, from a stable sort of the subset (a permutation preserving the
relative order of equal keys); on the spec's example `[10,50,30,50,20]` it
returns all five ranked `[50,50,30,20,10]` with the two 50-rows in original
relative order. -/
theorem c4_top5 (key : Record → ℚ) (l : List Record) (_hne : l ≠ []) :
    (nlargest5 key l).length ≤ 5 ∧
    List.Pairwise (fun a b => key b ≤ key a) (nlargest5 key l) ∧
    List.Perm (nlargestSort key l) l ∧
    (∀ k : ℚ, (nlargestSort key l).filter (fun r => decide (key r = k)) =
      l.filter (fun r => decide (key r = k))) ∧
    top_districts (fun r => r.population) exampleRows =
      [("D2", 50), ("D4", 50), ("D3", 30), ("D5", 20), ("D1", 10)] := by
  refine ⟨?_, ?_, ?_, ?_, ?_⟩
  · exact (List.length_take 5 (nlargestSort key l)).le.trans
      (min_le_left 5 _)
  · haveI : IsTotal Record (keyGE key) := ⟨fun a b => le_total (key b) (key a)⟩
    haveI : IsTrans Record (keyGE key) :=
      ⟨fun _ _ _ hab hbc => le_trans hbc hab⟩
    exact List.Pairwise.sublist (List.take_sublist 5 _)
      (List.sorted_insertionSort (keyGE key) l)
  · exact List.perm_insertionSort (keyGE key) l
  · exact fun k => filter_key_nlargestSort key k l
  · rfl

/-- Witness for C4 at a concrete non-empty subset. -/
theorem c4_top5_witness :
    exampleRows ≠ [] ∧
      (nlargest5 (fun r => r.population) exampleRows).length ≤ 5 ∧
      top_districts (fun r => r.population) exampleRows =
        [("D2", 50), ("D4", 50), ("D3", 30), ("D5", 20), ("D1", 10)] :=
  ⟨by decide,
    (c4_top5 (fun r => r.population) exampleRows (by decide)).1,
    (c4_top5 (fun r => r.population) exampleRows (by decide)).2.2.2.2⟩

/-- Output of the Charts tab: either a rendered chart over the
region-restricted subset, or the warning at line 154. -/
inductive Tab2Output
  | chart (kind : ChartType) (data : List Record)
  | notice (msg : String)
deriving Repr, DecidableEq

/-- The warning emitted by line 154. -/
def chartsNotice : String :=
  "Charts are available only for specific states, not \x27Overall India\x27."

/-- Lines 122-154: `if selected_state != "Overall India" and not
state_df.empty:` render the chart selected by `chart_type`, else warn. -/
def tab2 (selected_state : String) (chart_type : ChartType)
    (sdf : List Record) : Tab2Output :=
  if selected_state ≠ "Overall India" ∧ ¬ sdf.isEmpty then
    match chart_type with
    | ChartType.bar => Tab2Output.chart ChartType.bar sdf
    | ChartType.pie => Tab2Output.chart ChartType.pie sdf
    | ChartType.box => Tab2Output.chart ChartType.box sdf
  else Tab2Output.notice chartsNotice

/-- C5: the Charts tab renders a chart exactly when a specific region is
selected and the region-restricted subset is non-empty; in every other case
(including region = "Overall India" with any chart kind) it emits the
"charts require a specific region" notice. -/
theorem c5_charts_gate (ss : String) (ct : ChartType) (sdf : List Record) :
    ((ss ≠ "Overall India" ∧ sdf ≠ []) → tab2 ss ct sdf =
      Tab2Output.chart ct sdf) ∧
    ((ss = "Overall India" ∨ sdf = []) →
      tab2 ss ct sdf = Tab2Output.notice chartsNotice) ∧
    (∀ k d, tab2 ss ct sdf = Tab2Output.chart k d →
      ss ≠ "Overall India" ∧ sdf ≠ []) := by
  have hiff : (¬ sdf.isEmpty) ↔ sdf ≠ [] := by
    cases sdf <;> simp
  refine ⟨?_, ?_, ?_⟩
  · intro h
    unfold tab2
    rw [if_pos ⟨h.1, hiff.mpr h.2⟩]
    cases ct <;> rfl
  · intro h
    unfold tab2
    rw [if_neg ?_]
    intro hc
    rcases h with h | h
    · exact hc.1 h
    · exact (hiff.mp hc.2) h
  · intro k d h
    by_contra hn
    have hneg : ¬ (ss ≠ "Overall India" ∧ ¬ sdf.isEmpty) := by
      intro hc
      exact hn ⟨hc.1, hiff.mp hc.2⟩
    unfold tab2 at h
    rw [if_neg hneg] at h
    exact Tab2Output.noConfusion h

/-- Witness for C5: chart at ("Goa", non-empty), notice at "Overall India". -/
theorem c5_charts_gate_witness :
    tab2 "Goa" ChartType.bar [goa1] = Tab2Output.chart ChartType.bar [goa1] ∧
      tab2 "Overall India" ChartType.bar [goa1] =
        Tab2Output.notice chartsNotice :=
  ⟨(c5_charts_gate "Goa" ChartType.bar [goa1]).1 ⟨by decide, by decide⟩,
    (c5_charts_gate "Overall India" ChartType.bar [goa1]).2.1 (Or.inl rfl)⟩

/-- Mean of a column as pandas computes it (`sum / count`; in ℚ the empty
mean degenerates to `0/0 = 0`, standing in for pandas NaN). -/
def colMean (x : List ℚ) : ℚ :=
  x.sum / (x.length : ℚ)

/-- Output of the summary-stats part of the Summary tab (lines 212-229):
either the per-region summary with its top-5 table, or the Overall-India
summary computed over the whole filtered table (no notice, no top-5). -/
inductive SummaryOutput
  | regionSummary (totalPop meanLit : ℚ) (count : ℕ)
      (top5 : List (String × ℚ))
  | overallSummary (totalPop meanLit : ℚ) (count : ℕ)
deriving Repr, DecidableEq

/-- Lines 212-229: `if selected_state != "Overall India" and not
state_df.empty:` show region totals and the top-5 table, `else` show the
Overall-India totals over `filtered_df`. -/
def summarySection (selected_state : String) (key : Record → ℚ)
    (filtered sdf : List Record) : SummaryOutput :=
  if selected_state ≠ "Overall India" ∧ ¬ sdf.isEmpty then
    SummaryOutput.regionSummary ((sdf.map Record.population).sum)
      (colMean (sdf.map Record.literacy_rate)) sdf.length
      (top_districts key sdf)
  else
    SummaryOutput.overallSummary ((filtered.map Record.population).sum)
      (colMean (filtered.map Record.literacy_rate)) filtered.length

/-- C10: with a specific region selected, a non-empty filtered subset, but an
empty region-restricted subset, the summary falls back to the Overall-India
aggregates over the whole filtered subset — no region notice, no top-5. -/
theorem c10_summary_fallback (ss : String) (key : Record → ℚ)
    (filtered : List Record)
    (_hss : ss ≠ "Overall India") (_hf : filtered ≠ [])
    (hempty : state_df filtered ss = []) :
    summarySection ss key filtered (state_df filtered ss) =
      SummaryOutput.overallSummary ((filtered.map Record.population).sum)
        (colMean (filtered.map Record.literacy_rate)) filtered.length := by
  unfold summarySection
  rw [if_neg ?_]
  intro hc
  rw [hempty] at hc
  exact hc.2 rfl

/-- A concrete record outside Goa, used by the C10 witness. -/
def kerala1 : Record :=
  { state := "Kerala", district := "Ernakulam", latitude := 999/100
  , longitude := 7628/100, population := 3282388, literacy_rate := 9542/100
  , sex_ratio := 1027 }

/-- Witness for C10: region "Goa" selected, the filtered table holds only a
Kerala row, so the region-restricted subset is empty. -/
theorem c10_summary_fallback_witness :
    ("Goa" : String) ≠ "Overall India" ∧ ([kerala1] : List Record) ≠ [] ∧
      state_df [kerala1] "Goa" = [] ∧
      summarySection "Goa" Record.population [kerala1]
          (state_df [kerala1] "Goa") =
        SummaryOutput.overallSummary (([kerala1].map Record.population).sum)
          (colMean ([kerala1].map Record.literacy_rate)) 1 :=
  ⟨by decide, by decide, by decide,
    c10_summary_fallback "Goa" Record.population [kerala1]
      (by decide) (by decide) (by decide)⟩

/-- CSV rendering of one row (`state_df.to_csv(index=False)`, line 235). -/
def recordCsvLine (r : Record) : String :=
  r.state ++ "," ++ r.district ++ "," ++ toString r.latitude ++ "," ++
    toString r.longitude ++ "," ++ toString r.population ++ "," ++
    toString r.literacy_rate ++ "," ++ toString r.sex_ratio

/-- The CSV header row written by `to_csv`. -/
def csvHeader : String :=
  "State,District,Latitude,Longitude,Population,Literacy_Rate,Sex_Ratio"

/-- The lines of the exported CSV: one header row, then one row per record
of the active subset (line 235). -/
def csvLines (l : List Record) : List String :=
  csvHeader :: l.map recordCsvLine

/-- Line 236: `file_name=f"{selected_state}_filtered_data.csv"`. -/
def downloadFileName (selected_state : String) : String :=
  selected_state ++ "_filtered_data.csv"

/-- C7: export serializes exactly the active subset — the file has one
header row plus one row per record (count = records + 1), the data rows are
the subset's rows in order, and the filename contains the active region
name as a substring. -/
theorem c7_export (sdf : List Record) (ss : String) (_hne : sdf ≠ []) :
    (csvLines sdf).length = sdf.length + 1 ∧
    (csvLines sdf).tail = sdf.map recordCsvLine ∧
    ∃ pre suf, downloadFileName ss = pre ++ ss ++ suf := by
  refine ⟨?_, rfl, "", "_filtered_data.csv", ?_⟩
  · show (csvHeader :: sdf.map recordCsvLine).length = sdf.length + 1
    rw [List.length_cons, List.length_map]
  · show downloadFileName ss = "" ++ ss ++ "_filtered_data.csv"
    unfold downloadFileName
    rw [String.empty_append]

/-- A 3-record Goa subset, spec's export scenario. -/
def goaSubset : List Record :=
  [ goa1
  , { state := "Goa", district := "South Goa", latitude := 151/10
    , longitude := 740/10, population := 640537, literacy_rate := 8759/100
    , sex_ratio := 986 }
  , { state := "Goa", district := "Central Goa", latitude := 154/10
    , longitude := 7395/100, population := 100000, literacy_rate := 90
    , sex_ratio := 970 } ]

/-- Witness for C7: a 3-record Goa subset yields 3 data rows plus a header,
with "Goa" in the filename. -/
theorem c7_export_witness :
    (goaSubset : List Record) ≠ [] ∧
      (csvLines goaSubset).length = goaSubset.length + 1 ∧
      (csvLines goaSubset).tail = goaSubset.map recordCsvLine ∧
      ∃ pre suf, downloadFileName "Goa" = pre ++ "Goa" ++ suf :=
  ⟨by decide, c7_export goaSubset "Goa" (by decide)⟩

/-- Column extraction: the values of one numeric field over a subset. -/
def colOf (f : Record → ℚ) (l : List Record) : List ℚ :=
  l.map f

/-- Sample covariance with divisor `n - 1`, as the dataframe engine computes
it for `corr` (line 182).  Over ℚ the degenerate divisor `0` (fewer than two
rows) makes the quotient `0`, standing in for the engine's NaN. -/
def sampleCov (x y : List ℚ) : ℚ :=
  (List.zipWith (fun a b => (a - colMean x) * (b - colMean y)) x y).sum /
    ((x.length : ℚ) - 1)

/-- Sample variance of a column. -/
def sampleVar (x : List ℚ) : ℚ :=
  sampleCov x x

/-- One Pearson-correlation entry: covariance over the product of the two
standard deviations.  The square root is an explicit parameter `s` (the
engine's square-root routine); every property proved below holds for any
routine with the stated behaviour at the points used. -/
def corrEntry (s : ℚ → ℚ) (x y : List ℚ) : ℚ :=
  sampleCov x y / (s (sampleVar x) * s (sampleVar y))

/-- Line 182, `state_df[numerical_cols].corr()`: the matrix entry for the
pair of numeric fields `f`, `g` over the subset `l`. -/
def corrMatrixEntry (s : ℚ → ℚ) (l : List Record) (f g : Record → ℚ) : ℚ :=
  corrEntry s (colOf f l) (colOf g l)

/-- Covariance is symmetric for equal-length columns. -/
theorem sampleCov_comm (x y : List ℚ) (h : x.length = y.length) :
    sampleCov x y = sampleCov y x := by
  unfold sampleCov
  rw [h]
  congr 1
  rw [List.zipWith_comm (fun a b => (a - colMean x) * (b - colMean y)) x y]
  have hf : (fun b a => (a - colMean x) * (b - colMean y)) =
      (fun a b : ℚ => (a - colMean y) * (b - colMean x)) := by
    funext u v
    ring
  rw [hf]

/-- C6 (amended): every correlation-matrix entry is symmetric in its two
fields; a diagonal entry equals 1 provided the field's sample variance over
the subset is nonzero and the square-root routine is exact at that variance
(for a constant column — e.g. any single-row subset — the variance
degenerates and the diagonal entry is NaN, not 1). -/
theorem c6_corr_matrix (s : ℚ → ℚ) (l : List Record)
    (f g : Record → ℚ) :
    corrMatrixEntry s l f g = corrMatrixEntry s l g f ∧
    (s (sampleVar (colOf f l)) * s (sampleVar (colOf f l)) =
        sampleVar (colOf f l) →
      sampleVar (colOf f l) ≠ 0 →
      corrMatrixEntry s l f f = 1) := by
  constructor
  · unfold corrMatrixEntry corrEntry
    rw [sampleCov_comm (colOf f l) (colOf g l) ?_, mul_comm]
    unfold colOf
    rw [List.length_map, List.length_map]
  · intro hs hv
    unfold corrMatrixEntry corrEntry
    rw [hs]
    exact div_self hv

/-- Three rows whose `Population` column is `[0, 1, 2]` (sample variance 1),
used by the C6 witness. -/
def varRows : List Record :=
  [ { state := "S", district := "E1", latitude := 0, longitude := 0
    , population := 0, literacy_rate := 0, sex_ratio := 0 }
  , { state := "S", district := "E2", latitude := 0, longitude := 0
    , population := 1, literacy_rate := 0, sex_ratio := 0 }
  , { state := "S", district := "E3", latitude := 0, longitude := 0
    , population := 2, literacy_rate := 0, sex_ratio := 0 } ]

/-- Witness for C6 at a concrete subset with variance 1 (where the identity
is an exact square root). -/
theorem c6_corr_matrix_witness :
    (id (sampleVar (colOf Record.population varRows)) *
        id (sampleVar (colOf Record.population varRows)) =
      sampleVar (colOf Record.population varRows)) ∧
    sampleVar (colOf Record.population varRows) ≠ 0 ∧
    corrMatrixEntry id varRows Record.population Record.population = 1 :=
  ⟨by norm_num [sampleVar, sampleCov, colMean, colOf, varRows],
    by norm_num [sampleVar, sampleCov, colMean, colOf, varRows],
    (c6_corr_matrix id varRows Record.population Record.population).2
      (by norm_num [sampleVar, sampleCov, colMean, colOf, varRows])
      (by norm_num [sampleVar, sampleCov, colMean, colOf, varRows])⟩

/-- Counterexample to C6 as stated: over the single-record subset `[goa1]`
the `Population` column is constant, its sample variance degenerates
(divisor `n - 1 = 0`; NaN in the engine), and the diagonal entry is not 1. -/
theorem c6_diag_counterexample :
    corrMatrixEntry id [goa1] Record.population Record.population ≠ 1 := by
  norm_num [corrMatrixEntry, corrEntry, sampleVar, sampleCov, colMean,
    colOf, goa1]

/-- The numeric columns of the embedded table
(`state_df.select_dtypes(include=[np.number])`, line 159). -/
def numericFields : List (Record → ℚ) :=
  [Record.population, Record.literacy_rate, Record.sex_ratio]

/-- Column lookup for the `primary` selectbox value (a numeric column name,
lines 33-40). -/
def numericField (name : String) : Record → ℚ :=
  if name = "Population" then Record.population
  else if name = "Literacy_Rate" then Record.literacy_rate
  else Record.sex_ratio

/-- The full CSV text of `state_df.to_csv(index=False)` (line 235): the
lines joined by newlines, with a trailing newline. -/
def toCsv (l : List Record) : String :=
  String.intercalate "\n" (csvLines l) ++ "\n"

/-- The warning at line 94. -/
def noDataNotice : String :=
  "No data matches the selected filters. Please adjust the filters."

/-- The user-visible steps one plot pass performs, in order. -/
inductive UiAction
  | warning (msg : String)
  | mapFigure (title : String) (zoom : ℕ) (data : List Record)
  | chartsTab (out : Tab2Output)
  | heatmap (data : List Record)
  | insufficientColsNotice
  | summaryStats (out : SummaryOutput)
  | download (fileName csv : String)
deriving Repr, DecidableEq

/-- The runtime failure the pass can raise. -/
inductive RunError
  | nameErrorStateDf
deriving Repr, DecidableEq

/-- Line 232, `if not state_df.empty:` — the gate of the download button.
The name `state_df` is bound only at lines 99 and 103, inside the non-empty
branch, so in a run whose filtered table was empty the gate evaluates an
unassigned name and raises NameError (`none` case). -/
def downloadStep (ss : String) (sdf : Option (List Record)) :
    List UiAction × Option RunError :=
  match sdf with
  | none => ([], some RunError.nameErrorStateDf)
  | some l =>
    (if l.isEmpty then []
     else [UiAction.download (downloadFileName ss) (toCsv l)], none)

/-- Lines 91-238, the whole `if plot:` block: the validation gate, the three
tabs, and the download gate, producing the emitted actions and the runtime
error, if any. -/
def plotPass (df : List Record) (sel : Selection) :
    List UiAction × Option RunError :=
  let filtered := filtered_df df sel.min_population sel.min_literacy
  if filtered.isEmpty then
    let dl := downloadStep sel.selected_state none
    (UiAction.warning noDataNotice :: dl.1, dl.2)
  else
    let sdf := state_df filtered sel.selected_state
    let zoom : ℕ := if sel.selected_state = "Overall India" then 3 else 6
    let title := sel.selected_state
    let tab1Acts : List UiAction :=
      if sdf.isEmpty then
        [UiAction.warning ("No data available for " ++ sel.selected_state ++
          " with the current filters.")]
      else [UiAction.mapFigure title zoom sdf]
    let tab2Act := UiAction.chartsTab (tab2 sel.selected_state sel.chart_type sdf)
    let tab3Acts : List UiAction :=
      (if 1 < numericFields.length then [UiAction.heatmap sdf]
       else [UiAction.insufficientColsNotice]) ++
      [UiAction.summaryStats
        (summarySection sel.selected_state (numericField sel.primary)
          filtered sdf)]
    let dl := downloadStep sel.selected_state (some sdf)
    (tab1Acts ++ tab2Act :: tab3Acts ++ dl.1, dl.2)

/-- A Selection whose population floor exceeds every population in the
one-row table `[goa1]`. -/
def highThresholdSel : Selection :=
  { selected_state := "Overall India"
  , primary := "Population"
  , secondary := "Population"
  , min_population := 1000000
  , min_literacy := 0
  , chart_type := ChartType.bar }

/-- C2 (code bug): firing Plot on an empty Working Subset emits the
"no data matches filters" notice but then raises NameError at the download
gate (line 232 reads `state_df`, never assigned in this run) — contradicting
"no failure other than the notice occurs". -/
theorem c2_empty_subset_name_error :
    plotPass [goa1] highThresholdSel =
      ([UiAction.warning noDataNotice], some RunError.nameErrorStateDf) := by
  decide

/-- Lines 64-65: `if reset: st.experimental_rerun()`.  Streamlit's rerun
re-executes the script while preserving every widget's value for the
session, so the handler leaves the Selection widgets unchanged: no widget
value is written back to its default. -/
def resetRerun (sel : Selection) : Selection :=
  sel

/-- A concrete non-default Selection. -/
def goaSelection : Selection :=
  { selected_state := "Goa"
  , primary := "Literacy_Rate"
  , secondary := "State"
  , min_population := 500000
  , min_literacy := 10
  , chart_type := ChartType.pie }

/-- C9 (code bug): firing Reset leaves the Selection State exactly as it
was — in particular a non-default Selection does not return to the
defaults, contradicting the claim. -/
theorem c9_reset_keeps_selection :
    resetRerun goaSelection = goaSelection ∧
      resetRerun goaSelection ≠ defaultSelection := by
  exact ⟨rfl, by decide⟩
